import Mathlib

/-!
Verification of the CorePost server core (src/main.py): the HMAC request
verifier, the device auth resolvers, the lock/unlock two-phase state
machine, and the admin override.  Timestamps are modelled as integer
seconds; `DATETIME` columns that may be NULL become `Option Int`.  The
SQLite row of the `devices` table becomes the `Device` structure, and the
handlers become pure functions from (config, current time, device/db) to
(result, updated device/db).  HMAC-SHA256 hex digests are treated as an
abstract function parameter `hmacHex : String → String → String`
(the call `hmac.new(secret, msg, sha256).hexdigest()` in the source).
-/

/-- Configuration values read from `server.conf` at process start
(`needLockApproval`, `lockApprovalTimeSecond`, `adminToken`, `hmacWindow`). -/
structure Config where
  needLockApproval : Bool
  lockApprovalTimeSecond : Int
  adminToken : String
  hmacWindow : Int
  deriving DecidableEq, Repr

/-- One row of the `devices` table created by `init_db`:
`deviceId TEXT PRIMARY KEY, emergencyId TEXT NOT NULL,
emergencyState INTEGER DEFAULT 0, token TEXT NOT NULL, lastSeen DATETIME,
hwid TEXT, pendingLockTime DATETIME, userCanUnlock INTEGER DEFAULT 1`.
The 0/1 integer flags are modelled as `Bool` (the source only ever stores
0 or 1 and tests `== 0` / `!= 0`); nullable datetimes as `Option Int`. -/
structure Device where
  deviceId : String
  emergencyId : String
  emergencyState : Bool
  token : String
  lastSeen : Option Int
  hwid : Option String
  pendingLockTime : Option Int
  userCanUnlock : Bool
  deriving DecidableEq, Repr

/-- Decimal digit accumulator for `parseTimestamp`: consumes the
remaining characters, failing on any non-digit. -/
def parseDigits : List Char → Nat → Option Nat
  | [], acc => some acc
  | c :: cs, acc =>
    if c.isDigit then parseDigits cs (10 * acc + (c.toNat - 48)) else none

/-- Integer parse of the timestamp string, standing for the Python call
`int(timestamp)` in `verify_hmac`: an optional minus sign followed by
one or more decimal digits; anything else fails (and `verify_hmac`
returns False through its `except` clause). -/
def parseTimestamp (s : String) : Option Int :=
  match s.data with
  | [] => none
  | ['-'] => none
  | '-' :: c :: cs => (parseDigits (c :: cs) 0).map (fun n => -(n : Int))
  | cs => (parseDigits cs 0).map (fun n => (n : Int))

/-- `verify_hmac(secret, timestamp, signature)` from src/main.py lines 59-73:
parse the timestamp as an integer (reject on failure), reject when
`|now - req_time| > hmacWindow`, then compare the hex HMAC-SHA256 of the
timestamp string (keyed by the secret) with the signature
(`hmac.compare_digest`, i.e. equality computed in constant time). -/
def verify_hmac (hmacHex : String → String → String) (hmacWindow : Int)
    (now : Int) (secret timestamp signature : String) : Bool :=
  match parseTimestamp timestamp with
  | none => false
  | some reqTime =>
    if |now - reqTime| > hmacWindow then false
    else hmacHex secret timestamp == signature

/-- `SELECT * FROM devices WHERE deviceId = ?` (first row or none). -/
def get_client_device (db : List Device) (deviceId : String) : Option Device :=
  db.find? (fun d => d.deviceId == deviceId)

/-- `SELECT * FROM devices WHERE emergencyId = ?` (first row or none). -/
def get_mobile_device_by_emergency (db : List Device) (emergencyId : String) :
    Option Device :=
  db.find? (fun d => d.emergencyId == emergencyId)

/-- Outcome of the auth dependencies: the resolved device row on success,
or an HTTPException with a status code and a detail string. -/
inductive AuthOutcome where
  | ok (device : Device)
  | failure (statusCode : Nat) (detail : String)
  deriving DecidableEq, Repr

/-- `verifyClientAuth` (src/main.py lines 100-116): look the device up by
`X-DeviceId`; missing row raises 401 "Device not found"; a failing
`verify_hmac` on the row's token raises 401 "Invalid HMAC signature". -/
def verifyClientAuth (hmacHex : String → String → String) (cfg : Config)
    (now : Int) (db : List Device)
    (x_deviceid x_timestamp x_signature : String) : AuthOutcome :=
  match get_client_device db x_deviceid with
  | none => .failure 401 "Device not found"
  | some device =>
    if verify_hmac hmacHex cfg.hmacWindow now device.token x_timestamp x_signature
    then .ok device
    else .failure 401 "Invalid HMAC signature"

/-- `verifyMobileAuth` (src/main.py lines 118-133): identical to
`verifyClientAuth` but the lookup key is `X-EmergencyId`. -/
def verifyMobileAuth (hmacHex : String → String → String) (cfg : Config)
    (now : Int) (db : List Device)
    (x_emergencyid x_timestamp x_signature : String) : AuthOutcome :=
  match get_mobile_device_by_emergency db x_emergencyid with
  | none => .failure 401 "Device not found"
  | some device =>
    if verify_hmac hmacHex cfg.hmacWindow now device.token x_timestamp x_signature
    then .ok device
    else .failure 401 "Invalid HMAC signature"

/-- Result of a `/mobile/lock` or `/mobile/unlock` call on an
authenticated device: 200 applied, 201 confirmation pending,
403 permission denied, or 408 approval timeout. -/
inductive TransitionResult where
  | applied
  | pending
  | permissionDenied
  | timeout
  deriving DecidableEq, Repr

/-- `mobileLock` handler body (src/main.py lines 267-312), acting on the
authenticated device row.  With `needLockApproval`: no pending time sets
`pendingLockTime = now` (201); a pending time within
`lockApprovalTimeSecond` seconds sets `emergencyState = 1`, clears
`pendingLockTime`, updates `lastSeen` (200); an expired pending time is
reset to `now` (201 again).  Without approval: set `emergencyState = 1`
and `lastSeen` immediately. -/
def mobileLock (cfg : Config) (now : Int) (d : Device) :
    TransitionResult × Device :=
  if cfg.needLockApproval then
    match d.pendingLockTime with
    | none => (.pending, { d with pendingLockTime := some now })
    | some prevTime =>
      if now - prevTime ≤ cfg.lockApprovalTimeSecond then
        (.applied, { d with emergencyState := true, pendingLockTime := none,
                            lastSeen := some now })
      else
        (.pending, { d with pendingLockTime := some now })
  else
    (.applied, { d with emergencyState := true, lastSeen := some now })

/-- `mobileUnlock` handler body (src/main.py lines 315-356).  A device with
`userCanUnlock = 0` gets 403 before anything else.  With
`needLockApproval`: no pending time sets `pendingLockTime = now` (201); a
pending time within the window sets `emergencyState = 0`, clears
`pendingLockTime`, updates `lastSeen` (200); an expired pending time is
cleared and the call fails with 408.  Without approval: clear
`emergencyState` and update `lastSeen` immediately. -/
def mobileUnlock (cfg : Config) (now : Int) (d : Device) :
    TransitionResult × Device :=
  if d.userCanUnlock = false then (.permissionDenied, d)
  else if cfg.needLockApproval then
    match d.pendingLockTime with
    | none => (.pending, { d with pendingLockTime := some now })
    | some prevTime =>
      if now - prevTime ≤ cfg.lockApprovalTimeSecond then
        (.applied, { d with emergencyState := false, pendingLockTime := none,
                            lastSeen := some now })
      else
        (.timeout, { d with pendingLockTime := none })
  else
    (.applied, { d with emergencyState := false, lastSeen := some now })

/-- Result of `/client/AmIOk`: 200 ok, or 403 stolen. -/
inductive AmIOkResult where
  | ok
  | stolen
  deriving DecidableEq, Repr

/-- `clientAmIOk` handler body (src/main.py lines 218-238): update
`lastSeen` first (committed), then re-read `emergencyState`; 0 returns ok,
anything else raises 403. -/
def clientAmIOk (now : Int) (d : Device) : AmIOkResult × Device :=
  let d' := { d with lastSeen := some now }
  (if d'.emergencyState then .stolen else .ok, d')

/-- Response body of `/mobile/check` (src/main.py lines 254-264):
the emergency flag plus the two approval configuration values.  The
handler performs no database write at all. -/
structure MobileCheckResponse where
  emergencyState : Bool
  needLockApproval : Bool
  lockApprovalTimeSecond : Int
  deriving DecidableEq, Repr

/-- `mobileCheck` handler body: build the response from the authenticated
row and the configuration; the device record is returned untouched. -/
def mobileCheck (cfg : Config) (d : Device) : MobileCheckResponse × Device :=
  ({ emergencyState := d.emergencyState,
     needLockApproval := cfg.needLockApproval,
     lockApprovalTimeSecond := cfg.lockApprovalTimeSecond }, d)

/-- Result of `/client/decrypt`: the plain-text token, or 403 stolen. -/
inductive DecryptResult where
  | token (t : String)
  | stolen
  deriving DecidableEq, Repr

/-- `clientDecrypt` handler body (src/main.py lines 242-251): a device
with nonzero `emergencyState` gets 403; otherwise the handler returns the
device's own shared secret (`device["token"]`) as plain text. -/
def clientDecrypt (d : Device) : DecryptResult :=
  if d.emergencyState then .stolen else .token d.token

/-- Body of a `/admin/unlock` request (`AdminUnlockRequest` pydantic
model): optional `deviceId` and `emergencyId`. -/
structure AdminUnlockReq where
  deviceId : Option String
  emergencyId : Option String
  deriving DecidableEq, Repr

/-- Result of `/admin/unlock`: 200 applied, 401 bad admin token,
404 no matching row, 400 neither identifier given. -/
inductive AdminResult where
  | applied
  | authFailure
  | notFound
  | badRequest
  deriving DecidableEq, Repr

/-- Python truthiness of an `Optional[str]` field: `None` and the empty
string are falsy. -/
def pyTruthy : Option String → Bool
  | none => false
  | some s => !(s == "")

/-- Effect of the admin-unlock UPDATE on one matched row:
`SET emergencyState = 0, lastSeen = now` — `pendingLockTime` is not in
the SET list. -/
def adminClearRow (now : Int) (d : Device) : Device :=
  { d with emergencyState := false, lastSeen := some now }

/-- `adminUnlock` handler (src/main.py lines 388-412): reject a wrong
admin token with 401; a truthy `emergencyId` selects rows by
`emergencyId` (priority over `deviceId`), else a truthy `deviceId`
selects by `deviceId`, else 400; if the UPDATE matched no row, 404;
otherwise commit the update and return 200. -/
def adminUnlock (cfg : Config) (now : Int) (admin_token : String)
    (req : AdminUnlockReq) (db : List Device) : AdminResult × List Device :=
  if admin_token ≠ cfg.adminToken then (.authFailure, db)
  else if pyTruthy req.emergencyId then
    let eid := req.emergencyId.getD ""
    if (db.filter (fun d => d.emergencyId == eid)).length = 0 then
      (.notFound, db)
    else
      (.applied, db.map (fun d => if d.emergencyId == eid
                                  then adminClearRow now d else d))
  else if pyTruthy req.deviceId then
    let did := req.deviceId.getD ""
    if (db.filter (fun d => d.deviceId == did)).length = 0 then
      (.notFound, db)
    else
      (.applied, db.map (fun d => if d.deviceId == did
                                  then adminClearRow now d else d))
  else (.badRequest, db)

/-! Concrete fixtures used by counterexamples and witnesses. -/

/-- A sample configuration with approval required. -/
def cfg0 : Config :=
  { needLockApproval := true, lockApprovalTimeSecond := 30,
    adminToken := "supersecretadmin", hmacWindow := 5 }

/-- The sample configuration with approval switched off. -/
def cfgNoApproval : Config := { cfg0 with needLockApproval := false }

/-- A sample device row with a pending transition in flight. -/
def dPending : Device :=
  { deviceId := "dev1", emergencyId := "em1", emergencyState := true,
    token := "tok1", lastSeen := some 1, hwid := none,
    pendingLockTime := some 5, userCanUnlock := true }

/-- A sample idle, unlocked device row. -/
def dIdle : Device :=
  { deviceId := "dev2", emergencyId := "em2", emergencyState := false,
    token := "tok2", lastSeen := some 1, hwid := none,
    pendingLockTime := none, userCanUnlock := true }

/-- A concrete stand-in for the hex HMAC-SHA256 digest function. -/
def hmacHex0 : String → String → String := fun secret msg =>
  secret ++ ":" ++ msg

/-! Theorems. -/

/-- Claim C3 (confirmed): the Signature Verifier accepts exactly when the
timestamp string parses as an integer, lies within the freshness window
around the current time, and the signature equals the hex HMAC-SHA256 of
the timestamp keyed by the secret; in particular a timestamp outside the
window is rejected regardless of the signature. -/
theorem verify_hmac_accepts_iff
    (hmacHex : String → String → String) (w now : Int) (s ts sig : String) :
    verify_hmac hmacHex w now s ts sig = true ↔
      ∃ t : Int, parseTimestamp ts = some t ∧ |now - t| ≤ w ∧ sig = hmacHex s ts := by
  cases h : parseTimestamp ts with
  | none => simp [verify_hmac, h]
  | some t =>
    simp only [verify_hmac, h]
    by_cases hw : |now - t| > w
    · rw [if_pos hw]
      constructor
      · intro hc
        exact absurd hc (by simp)
      · rintro ⟨t', ht', hle, hsig⟩
        obtain rfl : t = t' := Option.some_inj.mp ht'
        exact absurd hle (not_le.mpr hw)
    · rw [if_neg hw]
      constructor
      · intro hacc
        exact ⟨t, rfl, not_lt.mp hw, (beq_iff_eq.mp hacc).symm⟩
      · rintro ⟨t', ht', hle, hsig⟩
        exact beq_iff_eq.mpr hsig.symm

/-- Claim C5 (confirmed): with approval required and an expired pending
transition, a lock request resets the pending time to now and returns
confirmation-pending again, while an unlock request (by a device allowed
to unlock) clears the pending time and fails with the 408 timeout. -/
theorem expired_window_lock_restarts_unlock_times_out
    (cfg : Config) (now prevTime : Int) (d : Device)
    (happr : cfg.needLockApproval = true)
    (hpend : d.pendingLockTime = some prevTime)
    (hexp : now - prevTime > cfg.lockApprovalTimeSecond) :
    mobileLock cfg now d = (.pending, { d with pendingLockTime := some now }) ∧
    (d.userCanUnlock = true →
      mobileUnlock cfg now d = (.timeout, { d with pendingLockTime := none })) := by
  have hnle := not_le.mpr hexp
  constructor
  · simp [mobileLock, happr, hpend, hnle]
  · intro hu
    simp [mobileUnlock, happr, hpend, hu, hnle]

/-- Witness for C5: at `cfg0`, time 100, and the pending device
`dPending` (pending since 5, window 30), lock restarts the window and
unlock times out. -/
theorem expired_window_lock_restarts_unlock_times_out_witness :
    mobileLock cfg0 100 dPending =
      (.pending, { dPending with pendingLockTime := some 100 }) ∧
    mobileUnlock cfg0 100 dPending =
      (.timeout, { dPending with pendingLockTime := none }) := by
  have h := expired_window_lock_restarts_unlock_times_out cfg0 100 5 dPending
    (by decide) (by decide) (by decide)
  exact ⟨h.1, h.2 (by decide)⟩

/-- Claim C6 (confirmed): with approval required and a pending transition
inside the window, a lock request arms the device, and an unlock request
(by a device allowed to unlock) disarms it; both clear the pending time,
update lastSeen, and return the applied outcome. -/
theorem within_window_confirms_transition
    (cfg : Config) (now prevTime : Int) (d : Device)
    (happr : cfg.needLockApproval = true)
    (hpend : d.pendingLockTime = some prevTime)
    (hin : now - prevTime ≤ cfg.lockApprovalTimeSecond) :
    mobileLock cfg now d =
      (.applied, { d with emergencyState := true, pendingLockTime := none,
                          lastSeen := some now }) ∧
    (d.userCanUnlock = true →
      mobileUnlock cfg now d =
        (.applied, { d with emergencyState := false, pendingLockTime := none,
                            lastSeen := some now })) := by
  constructor
  · simp [mobileLock, happr, hpend, hin]
  · intro hu
    simp [mobileUnlock, happr, hpend, hu, hin]

/-- Witness for C6: at `cfg0`, time 20, and `dPending` (pending since 5,
window 30), both directions confirm. -/
theorem within_window_confirms_transition_witness :
    mobileLock cfg0 20 dPending =
      (.applied, { dPending with
                     emergencyState := true, pendingLockTime := none,
                     lastSeen := some 20 }) ∧
    mobileUnlock cfg0 20 dPending =
      (.applied, { dPending with
                     emergencyState := false, pendingLockTime := none,
                     lastSeen := some 20 }) := by
  have h := within_window_confirms_transition cfg0 20 5 dPending
    (by decide) (by decide) (by decide)
  exact ⟨h.1, h.2 (by decide)⟩

/-- Claim C7 (confirmed): an unlock request by a device whose
userCanUnlock flag is 0 fails with 403 permission denied before any other
check, whatever the approval configuration and pending state, and the
device record is returned unchanged. -/
theorem unlock_permission_gate (cfg : Config) (now : Int) (d : Device)
    (h : d.userCanUnlock = false) :
    mobileUnlock cfg now d = (.permissionDenied, d) := by
  simp [mobileUnlock, h]

/-- A device row that is not allowed to unlock itself, with a pending
transition in flight. -/
def dNoUnlock : Device :=
  { dPending with deviceId := "dev3", emergencyId := "em3",
                  userCanUnlock := false }

/-- Witness for C7: the locked, pending device `dNoUnlock` gets
permission denied and is left untouched. -/
theorem unlock_permission_gate_witness :
    mobileUnlock cfg0 20 dNoUnlock = (.permissionDenied, dNoUnlock) :=
  unlock_permission_gate cfg0 20 dNoUnlock (by decide)

/-- Claim C10 (confirmed): the stored pending time carries no direction.
A first-phase lock followed by an unlock inside the window disarms the
device, and a first-phase unlock followed by a lock inside the window
arms it: the second call of either direction confirms the other's
pending. -/
theorem pending_direction_agnostic
    (cfg : Config) (t0 t1 : Int) (d : Device)
    (happr : cfg.needLockApproval = true)
    (hidle : d.pendingLockTime = none)
    (hu : d.userCanUnlock = true)
    (hin : t1 - t0 ≤ cfg.lockApprovalTimeSecond) :
    mobileLock cfg t0 d = (.pending, { d with pendingLockTime := some t0 }) ∧
    mobileUnlock cfg t1 { d with pendingLockTime := some t0 } =
      (.applied, { d with emergencyState := false, pendingLockTime := none,
                          lastSeen := some t1 }) ∧
    mobileUnlock cfg t0 d = (.pending, { d with pendingLockTime := some t0 }) ∧
    mobileLock cfg t1 { d with pendingLockTime := some t0 } =
      (.applied, { d with emergencyState := true, pendingLockTime := none,
                          lastSeen := some t1 }) := by
  refine ⟨?_, ?_, ?_, ?_⟩
  · simp [mobileLock, happr, hidle]
  · simp [mobileUnlock, happr, hu, hin]
  · simp [mobileUnlock, happr, hidle, hu]
  · simp [mobileLock, happr, hin]

/-- Witness for C10: at `cfg0`, a pending set at time 0 on the idle
device `dIdle` is confirmed at time 10 by the opposite direction. -/
theorem pending_direction_agnostic_witness :
    mobileLock cfg0 0 dIdle = (.pending, { dIdle with pendingLockTime := some 0 }) ∧
    mobileUnlock cfg0 10 { dIdle with pendingLockTime := some 0 } =
      (.applied, { dIdle with
                     emergencyState := false, pendingLockTime := none,
                     lastSeen := some 10 }) ∧
    mobileUnlock cfg0 0 dIdle = (.pending, { dIdle with pendingLockTime := some 0 }) ∧
    mobileLock cfg0 10 { dIdle with pendingLockTime := some 0 } =
      (.applied, { dIdle with
                     emergencyState := true, pendingLockTime := none,
                     lastSeen := some 10 }) :=
  pending_direction_agnostic cfg0 0 10 dIdle (by decide) (by decide)
    (by decide) (by decide)

/-- Counterexample for claim C1: the admin-unlock UPDATE sets only
`emergencyState = 0, lastSeen = now`; on the device `dPending`, whose
`pendingLockTime` is `some 5`, a correct-secret admin clear succeeds but
the stored pending transition survives it. -/
theorem adminUnlock_keeps_pending_counterexample :
    adminUnlock cfg0 10 "supersecretadmin" ⟨none, some "em1"⟩ [dPending] =
      (.applied, [{ dPending with emergencyState := false, lastSeen := some 10 }]) ∧
    ((adminUnlock cfg0 10 "supersecretadmin" ⟨none, some "em1"⟩ [dPending]).2.map
      (fun d => d.pendingLockTime)) = [some 5] := by decide

/-- Claim C1 (amended): an admin-clear with the correct admin secret and a
resolving identifier (emergencyId or deviceId) clears the armed flag and
updates lastSeen in one step, bypassing the two-phase logic, but leaves
`pendingLockTime` exactly as it was. -/
theorem adminUnlock_clears_armed_not_pending
    (cfg : Config) (now : Int) (d : Device)
    (hne : d.emergencyId ≠ "") (hnd : d.deviceId ≠ "") :
    adminUnlock cfg now cfg.adminToken ⟨none, some d.emergencyId⟩ [d] =
      (.applied, [{ d with emergencyState := false, lastSeen := some now }]) ∧
    adminUnlock cfg now cfg.adminToken ⟨some d.deviceId, none⟩ [d] =
      (.applied, [{ d with emergencyState := false, lastSeen := some now }]) ∧
    ({ d with emergencyState := false, lastSeen := some now } :
      Device).pendingLockTime = d.pendingLockTime := by
  refine ⟨?_, ?_, rfl⟩
  · simp [adminUnlock, pyTruthy, adminClearRow, hne, List.filter]
  · simp [adminUnlock, pyTruthy, adminClearRow, hne, hnd, List.filter]

/-- Witness for the amended C1: clearing `dPending` through its
emergencyId and through its deviceId, at time 10. -/
theorem adminUnlock_clears_armed_not_pending_witness :
    adminUnlock cfg0 10 cfg0.adminToken ⟨none, some "em1"⟩ [dPending] =
      (.applied, [{ dPending with emergencyState := false, lastSeen := some 10 }]) ∧
    adminUnlock cfg0 10 cfg0.adminToken ⟨some "dev1", none⟩ [dPending] =
      (.applied, [{ dPending with emergencyState := false, lastSeen := some 10 }]) := by
  have h := adminUnlock_clears_armed_not_pending cfg0 10 dPending
    (by decide) (by decide)
  exact ⟨h.1, h.2.1⟩

/-- Counterexample for claim C2: with approval off, a lock (or unlock) on
`dPending` returns applied but its stale `pendingLockTime` of 5 is not
cleared, contrary to the claim that it becomes absent. -/
theorem single_phase_keeps_pending_counterexample :
    (mobileLock cfgNoApproval 10 dPending).1 = .applied ∧
    (mobileLock cfgNoApproval 10 dPending).2.pendingLockTime = some 5 ∧
    (mobileUnlock cfgNoApproval 10 dPending).1 = .applied ∧
    (mobileUnlock cfgNoApproval 10 dPending).2.pendingLockTime = some 5 := by
  decide

/-- Claim C2 (amended): with approval off, a transition request applies
the target value to the armed flag, updates lastSeen, and returns the
applied outcome, but `pendingLockTime` is left unchanged rather than
cleared. -/
theorem single_phase_applies_without_clearing_pending
    (cfg : Config) (now : Int) (d : Device)
    (happr : cfg.needLockApproval = false) :
    mobileLock cfg now d =
      (.applied, { d with emergencyState := true, lastSeen := some now }) ∧
    (d.userCanUnlock = true →
      mobileUnlock cfg now d =
        (.applied, { d with emergencyState := false, lastSeen := some now })) := by
  constructor
  · simp [mobileLock, happr]
  · intro hu
    simp [mobileUnlock, happr, hu]

/-- Witness for the amended C2: single-phase lock and unlock on
`dPending` at time 10. -/
theorem single_phase_applies_without_clearing_pending_witness :
    mobileLock cfgNoApproval 10 dPending =
      (.applied, { dPending with emergencyState := true, lastSeen := some 10 }) ∧
    mobileUnlock cfgNoApproval 10 dPending =
      (.applied, { dPending with emergencyState := false, lastSeen := some 10 }) := by
  have h := single_phase_applies_without_clearing_pending cfgNoApproval 10 dPending
    (by decide)
  exact ⟨h.1, h.2 (by decide)⟩

/-- Counterexample for claim C4: the two authentication failures are not
identical responses — an unknown identifier yields 401 "Device not
found" while a resolving identifier with a bad signature yields 401
"Invalid HMAC signature", on both the client and the mobile path. -/
theorem auth_failures_distinguishable_counterexample :
    verifyClientAuth hmacHex0 cfg0 0 [dPending] "nope" "zz" "sig" =
      .failure 401 "Device not found" ∧
    verifyClientAuth hmacHex0 cfg0 0 [dPending] "dev1" "zz" "sig" =
      .failure 401 "Invalid HMAC signature" ∧
    verifyMobileAuth hmacHex0 cfg0 0 [dPending] "none" "zz" "sig" =
      .failure 401 "Device not found" ∧
    verifyMobileAuth hmacHex0 cfg0 0 [dPending] "em1" "zz" "sig" =
      .failure 401 "Invalid HMAC signature" ∧
    AuthOutcome.failure 401 "Device not found" ≠
      AuthOutcome.failure 401 "Invalid HMAC signature" := by decide

/-- Claim C4 (amended): both failure modes return the same 401 status
code, but with different detail strings — "Device not found" for an
unresolved identifier and "Invalid HMAC signature" for a failed
timestamp/signature check — so the response body does reveal which
sub-check failed, on the client path and the mobile path alike. -/
theorem auth_failures_same_status_distinct_detail
    (hmacHex : String → String → String) (cfg : Config) (now : Int)
    (db : List Device) (ident ts sig : String) :
    (get_client_device db ident = none →
      verifyClientAuth hmacHex cfg now db ident ts sig =
        .failure 401 "Device not found") ∧
    (∀ d, get_client_device db ident = some d →
      verify_hmac hmacHex cfg.hmacWindow now d.token ts sig = false →
      verifyClientAuth hmacHex cfg now db ident ts sig =
        .failure 401 "Invalid HMAC signature") ∧
    (get_mobile_device_by_emergency db ident = none →
      verifyMobileAuth hmacHex cfg now db ident ts sig =
        .failure 401 "Device not found") ∧
    (∀ d, get_mobile_device_by_emergency db ident = some d →
      verify_hmac hmacHex cfg.hmacWindow now d.token ts sig = false →
      verifyMobileAuth hmacHex cfg now db ident ts sig =
        .failure 401 "Invalid HMAC signature") := by
  refine ⟨?_, ?_, ?_, ?_⟩
  · intro h
    simp [verifyClientAuth, h]
  · intro d h hv
    simp [verifyClientAuth, h, hv]
  · intro h
    simp [verifyMobileAuth, h]
  · intro d h hv
    simp [verifyMobileAuth, h, hv]

/-- Witness for the amended C4: both client-path failure shapes at
concrete inputs. -/
theorem auth_failures_same_status_distinct_detail_witness :
    verifyClientAuth hmacHex0 cfg0 0 [dPending] "nope" "zz" "sig" =
      .failure 401 "Device not found" ∧
    verifyClientAuth hmacHex0 cfg0 0 [dPending] "dev1" "zz" "sig" =
      .failure 401 "Invalid HMAC signature" :=
  ⟨(auth_failures_same_status_distinct_detail hmacHex0 cfg0 0 [dPending]
      "nope" "zz" "sig").1 (by decide),
   (auth_failures_same_status_distinct_detail hmacHex0 cfg0 0 [dPending]
      "dev1" "zz" "sig").2.1 dPending (by decide) (by decide)⟩

/-- Counterexample for claim C8: the non-registration endpoint
`/client/decrypt` transmits the device's shared secret — on the
non-stolen device `dIdle` it returns the stored token "tok2" verbatim. -/
theorem clientDecrypt_returns_secret_counterexample :
    clientDecrypt dIdle = .token "tok2" ∧ dIdle.token = "tok2" := by decide

/-- Claim C8 (amended): besides registration, the client decrypt endpoint
also transmits the shared secret — it returns the stored token to any
authenticated device not marked stolen (and refuses a stolen one). -/
theorem clientDecrypt_transmits_token (d : Device)
    (h : d.emergencyState = false) :
    clientDecrypt d = .token d.token := by
  simp [clientDecrypt, h]

/-- Witness for the amended C8: the decrypt endpoint hands `dIdle` its
own token. -/
theorem clientDecrypt_transmits_token_witness :
    clientDecrypt dIdle = .token dIdle.token :=
  clientDecrypt_transmits_token dIdle (by decide)

/-- Counterexample for claim C9: the mobile check endpoint performs no
write at all — on `dPending`, whose lastSeen is 1, a successful check at
any later time leaves the record identical, so lastSeen is not updated
to the current time. -/
theorem mobileCheck_no_lastSeen_update_counterexample :
    mobileCheck cfg0 dPending =
      ({ emergencyState := true, needLockApproval := true,
         lockApprovalTimeSecond := 30 }, dPending) ∧
    dPending.lastSeen = some 1 := by decide

/-- Claim C9 (amended): a successful client status check updates lastSeen
to the current time and leaves the armed flag and pending transition
unchanged; the mobile check endpoint mutates nothing at all — lastSeen
included. -/
theorem status_checks_frame (now : Int) (d : Device) (cfg : Config) :
    (clientAmIOk now d).2 = { d with lastSeen := some now } ∧
    (clientAmIOk now d).2.emergencyState = d.emergencyState ∧
    (clientAmIOk now d).2.pendingLockTime = d.pendingLockTime ∧
    (mobileCheck cfg d).2 = d := by
  refine ⟨rfl, rfl, rfl, rfl⟩
